import Mathlib

/-!
# Shallow embedding of the `secure-ecommerce` authentication subsystem

This file embeds, in Lean 4, the authentication controllers of the
repository (`src/server/controllers/authController.js`) together with the
Mongoose user schema, its pre-save hooks and instance methods
(`src/server/index.js`, lines 146-391), and proves or refutes the frozen
claims C1-C10 about them.

Modelling conventions:
* Timestamps are `Nat` milliseconds (`Date.now()`); JWT `iat` claims are
  `Nat` seconds (`jsonwebtoken` stores `Math.floor(ms / 1000)`).
* `bcrypt.hash`/`bcrypt.compare` and `crypto.createHash('sha256')` are
  modelled by injective tagging functions: the claims are about control
  flow and state, not about the cryptographic primitives themselves.
* The user collection is a `List User`; `findOne`/`findById` respect the
  schema's `pre(/^find/)` hook that filters out `active == false`
  documents, and the `lowercase: true` setter on `email` (applied both on
  save and on query filters, per Mongoose >= 6 setter semantics).
* Fields no claim touches (`role` read paths, `securityEvents`,
  `addresses`, `twoFactor*`) and the `validator.isEmail` format check are
  omitted; omitting them only enlarges the success set of `signup` and is
  irrelevant to every claim below.
* `createSendToken` is modelled faithfully: it signs a JWT for the user id
  and sets `user.password = undefined` on the in-memory document before
  serialization (it does not write to the store).
-/

namespace SecureEcommerce

/-- Model of `bcrypt.hash(password, 12)` from the `pre('save')` hook:
an injective one-way tag. -/
def bcryptHash (p : String) : String := "bcrypt12$" ++ p

/-- Model of `user.correctPassword(candidate, stored)`
(`bcrypt.compare`): the stored value is a `bcryptHash` image. -/
def correctPassword (candidate stored : String) : Bool :=
  bcryptHash candidate == stored

/-- Model of `crypto.createHash('sha256').update(s).digest('hex')`. -/
def sha256Hex (s : String) : String := "sha256$" ++ s

/-- The user document, from `userSchema` in `src/server/index.js`
(lines 151-272). `password` stores the bcrypt hash (`select: false` only
affects projections, which the model keeps implicit). -/
structure User where
  id : Nat
  name : String
  email : String
  password : Option String
  role : String
  emailVerified : Bool
  verificationToken : Option String
  verificationExpires : Option Nat
  passwordChangedAt : Option Nat
  passwordResetToken : Option String
  passwordResetExpires : Option Nat
  active : Bool
  lastLogin : Option Nat
  loginAttempts : Nat
  accountLocked : Bool
  lockUntil : Option Nat
deriving Repr, DecidableEq

/-- A signed session token: `jwt.sign({id}, secret, {expiresIn})` carries
the user id and an `iat` claim in whole seconds. Signature validity and
the expiry claim are abstracted (every `SessionToken` value represents a
token whose signature verifies). -/
structure SessionToken where
  userId : Nat
  iat : Nat
deriving Repr, DecidableEq

/-- Model of `signToken(id)` at millisecond time `now`: `iat` is `now` in seconds. -/
def signToken (uid now : Nat) : SessionToken := ⟨uid, now / 1000⟩

/-- The success envelope produced by `createSendToken`:
`{status, token, data:{user}}` where `user.password` has been set to
`undefined` before serialization (line 38 of the controller). -/
structure AuthEnvelope where
  token : SessionToken
  user : User
deriving Repr, DecidableEq

/-- Model of `createSendToken(user, statusCode, req, res)`: sign a token for
`user._id` and strip the password from the serialized document. -/
def createSendToken (u : User) (now : Nat) : AuthEnvelope :=
  ⟨signToken u.id now, { u with password := none }⟩

/-- Model of the `lowercase: true` setter on `email`
(JavaScript's `toLowerCase`, restricted to the model's use of ASCII
email addresses): lowercase every character. -/
def lowercaseEmail (s : String) : String := ⟨s.data.map Char.toLower⟩

/-- The CSRF guard used at the top of every mutating controller:
`if (!csrfToken || csrfToken !== req.cookies['XSRF-TOKEN'])` fails. -/
def csrfValid (header cookie : String) : Bool :=
  header != "" && header == cookie

/-- Model of `User.findOne({ email })` composed with the `pre(/^find/)` active
filter; the `lowercase: true` setter on `email` lowercases the filter
value (stored emails are lowercased on save by the same setter). -/
def findOneByEmail (db : List User) (email : String) : Option User :=
  db.find? (fun u => u.active && u.email == lowercaseEmail email)

/-- Model of `User.findById(id)` composed with the `pre(/^find/)` active filter. -/
def findById (db : List User) (uid : Nat) : Option User :=
  db.find? (fun u => u.active && u.id == uid)

/-- Model of `User.findOne({ passwordResetToken: hashed, passwordResetExpires:
{$gt: Date.now()} })` from `resetPassword`; a missing
`passwordResetExpires` never satisfies `$gt`. -/
def findOneByResetToken (db : List User) (now : Nat) (hashed : String) :
    Option User :=
  db.find? (fun u =>
    u.active && u.passwordResetToken == some hashed &&
      (match u.passwordResetExpires with
       | some e => decide (e > now)
       | none => false))

/-- Write back a saved/updated document: every stored document with the
same `_id` is replaced. -/
def updateUser (db : List User) (u : User) : List User :=
  db.map (fun v => if v.id == u.id then u else v)

/-- A character matched by the regexp metacharacter `.` in JavaScript
(without the `s` flag): anything but a line terminator. -/
def jsDot (c : Char) : Bool :=
  c != '\n' && c != '\r' && c.val != 0x2028 && c.val != 0x2029

/-- The special-character class `[!@#$%^&*]` of the password regexp. -/
def specialChars : List Char := ['!', '@', '#', '$', '%', '^', '&', '*']

/-- The password-strength regexp
`/^(?=.*\d)(?=.*[a-z])(?=.*[A-Z])(?=.*[!@#$%^&*])(?=.{8,})/` used by
`signup`, `updatePassword` and `resetPassword`. Each lookahead `(?=.*X)`
anchored at position 0 demands an `X` preceded only by `.`-matchable
characters, i.e. an `X` inside the maximal `jsDot` prefix; `(?=.{8,})`
demands that prefix to have length at least 8. -/
def passwordRegex (p : String) : Bool :=
  let pre := p.toList.takeWhile jsDot
  pre.any (fun c => c.isDigit) &&
  pre.any (fun c => c.isLower) &&
  pre.any (fun c => c.isUpper) &&
  pre.any (fun c => specialChars.contains c) &&
  decide (pre.length ≥ 8)

/-- Model of `userSchema.methods.changedPasswordAfter(JWTTimestamp)`
(`src/server/index.js` lines 326-334): compares the JWT `iat` (seconds)
with `passwordChangedAt` truncated to seconds. -/
def changedPasswordAfter (u : User) (jwtTimestamp : Nat) : Bool :=
  match u.passwordChangedAt with
  | some t => decide (jwtTimestamp < t / 1000)
  | none => false

/-- Model of `userSchema.methods.handleFailedLogin()` (`src/server/index.js`
lines 373-386): increment `loginAttempts` and lock for 30 minutes once
the count reaches 5. (No controller in the repository ever calls it; see
claim C1.) -/
def handleFailedLogin (u : User) (now : Nat) : User :=
  let u1 := { u with loginAttempts := u.loginAttempts + 1 }
  if u1.loginAttempts ≥ 5 then
    { u1 with accountLocked := true, lockUntil := some (now + 30 * 60 * 1000) }
  else u1

/-- Outcome of `exports.login`. -/
inductive LoginResult where
  | csrfError
  | missingFields
  | incorrect
  | notVerified
  | locked (until_ : Nat)
  | success (env : AuthEnvelope)
deriving Repr, DecidableEq

/-- HTTP status attached to each `login` outcome by the controller. -/
def loginStatus : LoginResult → Nat
  | .csrfError => 403
  | .missingFields => 400
  | .incorrect => 401
  | .notVerified => 401
  | .locked _ => 401
  | .success _ => 200

/-- Holds exactly on the 200 success envelope. -/
def loginSucceeds : LoginResult → Bool
  | .success _ => true
  | _ => false

/-- The full observable outcome of one `login` request: the HTTP result,
whether `user.correctPassword` (the bcrypt comparison) was invoked, and
the user collection after the request. -/
structure LoginOutcome where
  result : LoginResult
  passwordChecked : Bool
  db : List User
deriving Repr, DecidableEq

/-- Model of `exports.login` (`authController.js` lines 132-212). Note the order
of checks in the source: CSRF, missing fields, lookup, bcrypt
comparison, email verification, and only then the account-lock check;
the branch after a failed comparison returns 401 without recording the
failed attempt. -/
def login (db : List User) (now : Nat) (csrfHeader csrfCookie : String)
    (email password : String) : LoginOutcome :=
  if !csrfValid csrfHeader csrfCookie then ⟨.csrfError, false, db⟩
  else if email == "" || password == "" then ⟨.missingFields, false, db⟩
  else
    match findOneByEmail db email with
    | none => ⟨.incorrect, false, db⟩
    | some u =>
      if !((u.password.map (correctPassword password)).getD false) then
        ⟨.incorrect, true, db⟩
      else if u.emailVerified == false then ⟨.notVerified, true, db⟩
      else if u.accountLocked then
        match u.lockUntil with
        | some t =>
          if decide (t > now) then ⟨.locked t, true, db⟩
          else
            let uSaved := { u with accountLocked := false, loginAttempts := 0 }
            ⟨.success (createSendToken uSaved now), true,
              updateUser db { uSaved with lastLogin := some now }⟩
        | none =>
          let uSaved := { u with accountLocked := false, loginAttempts := 0 }
          ⟨.success (createSendToken uSaved now), true,
            updateUser db { uSaved with lastLogin := some now }⟩
      else
        let uSaved := { u with loginAttempts := 0 }
        ⟨.success (createSendToken uSaved now), true,
          updateUser db { uSaved with lastLogin := some now }⟩

/-- Outcome of `exports.signup`. -/
inductive SignupResult where
  | csrfError
  | passwordTooShort
  | passwordWeak
  | passwordMismatch
  | duplicateEmail
  | created (env : AuthEnvelope)
deriving Repr, DecidableEq

/-- HTTP status attached to each `signup` outcome by the controller. -/
def signupStatus : SignupResult → Nat
  | .csrfError => 403
  | .passwordTooShort => 400
  | .passwordWeak => 400
  | .passwordMismatch => 400
  | .duplicateEmail => 400
  | .created _ => 201

/-- Model of `exports.signup` (`authController.js` lines 50-129). `freshId` models
the id Mongo assigns to the new document and `verTokPlain` the random
bytes from `createSecureToken()`. The created document takes the schema
defaults (`role = user`, `emailVerified = false`, `loginAttempts = 0`,
`accountLocked = false`, `active = true`); the `pre('save')` hook hashes
the password and, the document being new, does not set
`passwordChangedAt`. -/
def signup (db : List User) (now freshId : Nat) (verTokPlain : String)
    (csrfHeader csrfCookie name email password passwordConfirm : String) :
    SignupResult × List User :=
  if !csrfValid csrfHeader csrfCookie then (.csrfError, db)
  else if decide (password.length < 8) then (.passwordTooShort, db)
  else if !passwordRegex password then (.passwordWeak, db)
  else if password != passwordConfirm then (.passwordMismatch, db)
  else
    match findOneByEmail db email with
    | some _ => (.duplicateEmail, db)
    | none =>
      let newUser : User :=
        { id := freshId
          name := name
          email := lowercaseEmail email
          password := some (bcryptHash password)
          role := "user"
          emailVerified := false
          verificationToken := some (sha256Hex verTokPlain)
          verificationExpires := some (now + 24 * 60 * 60 * 1000)
          passwordChangedAt := none
          passwordResetToken := none
          passwordResetExpires := none
          active := true
          lastLogin := none
          loginAttempts := 0
          accountLocked := false
          lockUntil := none }
      (.created (createSendToken newUser now), db ++ [newUser])

/-- The response of `exports.logout` (`authController.js` lines 215-223):
status, JSON body, and the replacement `jwt` cookie with its `expires`
attribute. -/
structure LogoutResponse where
  status : Nat
  body : String
  cookieName : String
  cookieValue : String
  cookieExpires : Nat
deriving Repr, DecidableEq

/-- Model of `exports.logout`: 200 `{status:"success"}` and a `jwt` cookie set to
`'loggedout'` expiring at `Date.now() + 10 * 1000`. -/
def logout (now : Nat) : LogoutResponse :=
  ⟨200, "success", "jwt", "loggedout", now + 10 * 1000⟩

/-- Outcome of the `exports.protect` middleware (`validateSession`). -/
inductive ProtectResult where
  | noToken
  | noUser
  | passwordChanged
  | granted (u : User)
deriving Repr, DecidableEq

/-- Holds exactly when `protect` calls `next()` with a user attached. -/
def protectGrants : ProtectResult → Bool
  | .granted _ => true
  | _ => false

/-- Model of `exports.protect` (`authController.js` lines 226-276) for a token
whose signature already verifies: look up the user (active filter
applies) and reject the request when
`currentUser.changedPasswordAfter(decoded.iat)`. -/
def protect (db : List User) (token : Option SessionToken) : ProtectResult :=
  match token with
  | none => .noToken
  | some tok =>
    match findById db tok.userId with
    | none => .noUser
    | some u =>
      if changedPasswordAfter u tok.iat then .passwordChanged
      else .granted u

/-- Outcome of `exports.updatePassword`. -/
inductive UpdatePasswordResult where
  | csrfError
  | internalError
  | wrongCurrentPassword
  | passwordWeak
  | success (env : AuthEnvelope)
deriving Repr, DecidableEq

/-- HTTP status attached to each `updatePassword` outcome. -/
def updatePasswordStatus : UpdatePasswordResult → Nat
  | .csrfError => 403
  | .internalError => 500
  | .wrongCurrentPassword => 401
  | .passwordWeak => 400
  | .success _ => 200

/-- Model of `exports.updatePassword` (`authController.js` lines 293-348), run for
the authenticated user `uid` (`req.user.id` from `protect`). `user.save()`
runs schema validation (`passwordConfirm === password`, else the thrown
`ValidationError` lands in the catch block as a 500) and the `pre('save')`
hook (hash the password, set `passwordChangedAt = Date.now() - 1000` on a
non-new document); the following `findByIdAndUpdate` then overwrites
`passwordChangedAt` with plain `Date.now()` in the store without touching
the in-memory document that `createSendToken` serializes. -/
def updatePassword (db : List User) (now : Nat) (csrfHeader csrfCookie : String)
    (uid : Nat) (currentPassword newPassword passwordConfirm : String) :
    UpdatePasswordResult × List User :=
  if !csrfValid csrfHeader csrfCookie then (.csrfError, db)
  else
    match findById db uid with
    | none => (.internalError, db)
    | some u =>
      if !((u.password.map (correctPassword currentPassword)).getD false) then
        (.wrongCurrentPassword, db)
      else if !passwordRegex newPassword then (.passwordWeak, db)
      else if newPassword != passwordConfirm then (.internalError, db)
      else
        let uSaved := { u with password := some (bcryptHash newPassword),
                               passwordChangedAt := some (now - 1000) }
        ( .success (createSendToken uSaved now),
          updateUser db { uSaved with passwordChangedAt := some now } )

/-- Outcome of `exports.forgotPassword`. -/
inductive ForgotResult where
  | csrfError
  | notFound
  | tokenSent
deriving Repr, DecidableEq

/-- HTTP status attached to each `forgotPassword` outcome: the controller
answers 404 "There is no user with that email address" when the lookup
fails and 200 "Token sent to email" when it succeeds. -/
def forgotStatus : ForgotResult → Nat
  | .csrfError => 403
  | .notFound => 404
  | .tokenSent => 200

/-- Model of `exports.forgotPassword` (`authController.js` lines 351-403).
`resetTokPlain` models the random bytes from `createSecureToken()`; the
store keeps only their sha256 hash with a one-hour expiry. -/
def forgotPassword (db : List User) (now : Nat) (resetTokPlain : String)
    (csrfHeader csrfCookie email : String) : ForgotResult × List User :=
  if !csrfValid csrfHeader csrfCookie then (.csrfError, db)
  else
    match findOneByEmail db email with
    | none => (.notFound, db)
    | some u =>
      ( .tokenSent,
        updateUser db
          { u with passwordResetToken := some (sha256Hex resetTokPlain),
                   passwordResetExpires := some (now + 60 * 60 * 1000) } )

/-- Outcome of `exports.resetPassword`. -/
inductive ResetResult where
  | csrfError
  | invalidOrExpired
  | passwordWeak
  | internalError
  | success (env : AuthEnvelope)
deriving Repr, DecidableEq

/-- HTTP status attached to each `resetPassword` outcome. -/
def resetStatus : ResetResult → Nat
  | .csrfError => 403
  | .invalidOrExpired => 400
  | .passwordWeak => 400
  | .internalError => 500
  | .success _ => 200

/-- Model of `exports.resetPassword` (`authController.js` lines 406-471): hash the
supplied plaintext, look up a holder of that hash with an unexpired
expiry, then validate the new password and save. The save clears
`passwordResetToken`/`passwordResetExpires` and (non-new document) sets
`passwordChangedAt = Date.now() - 1000`; `findByIdAndUpdate` then
overwrites `passwordChangedAt` with plain `Date.now()` in the store. A
`passwordConfirm` mismatch throws at `save()` and becomes a 500. -/
def resetPassword (db : List User) (now : Nat) (csrfHeader csrfCookie : String)
    (tokenPlain password passwordConfirm : String) : ResetResult × List User :=
  if !csrfValid csrfHeader csrfCookie then (.csrfError, db)
  else
    match findOneByResetToken db now (sha256Hex tokenPlain) with
    | none => (.invalidOrExpired, db)
    | some u =>
      if !passwordRegex password then (.passwordWeak, db)
      else if password != passwordConfirm then (.internalError, db)
      else
        let uSaved := { u with password := some (bcryptHash password),
                               passwordResetToken := none,
                               passwordResetExpires := none,
                               passwordChangedAt := some (now - 1000) }
        ( .success (createSendToken uSaved now),
          updateUser db { uSaved with passwordChangedAt := some now } )

/-- The password rule exactly as the claim C9 states it (a spec-side
definition, to be compared with the code's `passwordRegex`): length at
least 8 and at least one uppercase letter, one lowercase letter, one
digit, and one special character anywhere in the string. -/
def specPasswordRule (p : String) : Bool :=
  decide (p.length ≥ 8) &&
  p.toList.any (fun c => c.isUpper) &&
  p.toList.any (fun c => c.isLower) &&
  p.toList.any (fun c => c.isDigit) &&
  p.toList.any (fun c => specialChars.contains c)

/-- Concrete stored user for witnesses and counterexamples: active,
email-verified, password hash of the plaintext `Correct1!`. -/
def sampleUser : User :=
  { id := 1
    name := "Alice"
    email := "alice@example.com"
    password := some (bcryptHash "Correct1!")
    role := "user"
    emailVerified := true
    verificationToken := none
    verificationExpires := none
    passwordChangedAt := none
    passwordResetToken := none
    passwordResetExpires := none
    active := true
    lastLogin := none
    loginAttempts := 0
    accountLocked := false
    lockUntil := none }

/-- Concrete user holding a live password-reset token hash (plaintext
`resetplain`, expiring at ms 10000). -/
def sampleResetUser : User :=
  { sampleUser with
      id := 2
      email := "bob@example.com"
      passwordResetToken := some (sha256Hex "resetplain")
      passwordResetExpires := some 10000 }

/-- Concrete locked, email-verified user: `lockUntil` ms 1000000,
`loginAttempts` 5. -/
def sampleLockedUser : User :=
  { sampleUser with
      id := 3
      email := "carol@example.com"
      accountLocked := true
      lockUntil := some 1000000
      loginAttempts := 5 }

/-- Concrete user that is not yet email-verified (the state `signup`
leaves every new user in). -/
def sampleUnverifiedUser : User :=
  { sampleUser with
      id := 4
      email := "dave@example.com"
      emailVerified := false }

end SecureEcommerce

namespace SecureEcommerce

theorem findById_spec {db : List User} {uid : Nat} {u : User}
    (h : findById db uid = some u) : u.active = true ∧ u.id = uid := by
  have hp := List.find?_some h
  simp only [Bool.and_eq_true, beq_iff_eq] at hp
  exact hp

theorem findById_updateUser (db : List User) (uid : Nat) (u uNew : User)
    (hfound : findById db uid = some u) (hid : uNew.id = uid)
    (hact : uNew.active = true) :
    findById (updateUser db uNew) uid = some uNew := by
  induction db with
  | nil => simp [findById] at hfound
  | cons v tl ih =>
    unfold updateUser at *
    unfold findById at *
    rw [List.map_cons]
    by_cases hv : v.id = uNew.id
    · have hv2 : (v.id == uNew.id) = true := by simp [hv]
      rw [hv2]
      simp only [if_true]
      rw [List.find?_cons_of_pos]
      simp [hact, hid]
    · have hv2 : (v.id == uNew.id) = false := by simp [hv]
      rw [hv2]
      simp only [if_false, Bool.false_eq_true]
      have hvpred : (v.active && v.id == uid) = false := by
        have : v.id ≠ uid := by rw [← hid]; exact hv
        simp [this]
      rw [List.find?_cons_of_neg _ (by simp [hvpred])]
      rw [List.find?_cons_of_neg _ (by simp [hvpred])] at hfound
      exact ih hfound

theorem findOneByResetToken_updateUser_cleared (db : List User) (now : Nat)
    (hashed : String) (uNew : User)
    (hclear : uNew.passwordResetToken = none)
    (huniq : ∀ v ∈ db, v.passwordResetToken = some hashed → v.id = uNew.id) :
    findOneByResetToken (updateUser db uNew) now hashed = none := by
  unfold findOneByResetToken updateUser
  rw [List.find?_eq_none]
  intro x hx
  rw [List.mem_map] at hx
  obtain ⟨v, hv, hvx⟩ := hx
  by_cases hid : v.id = uNew.id
  · have : x = uNew := by rw [← hvx]; simp [hid]
    subst this
    simp [hclear]
  · have hx2 : x = v := by rw [← hvx]; simp [hid]
    subst hx2
    intro hpred
    simp only [Bool.and_eq_true, beq_iff_eq] at hpred
    exact absurd (huniq x hv hpred.1.2) hid

end SecureEcommerce

namespace SecureEcommerce

/-- C1: evaluation of the code at the failing scenario. Five consecutive
failed logins with a wrong password leave the stored account completely
unchanged (`loginAttempts` stays 0, no lock is set), because `login`
never records the failed attempt, so the 6th attempt with the correct
password succeeds instead of failing `AccountLocked`; the schema method
`handleFailedLogin`, which would have locked the account on the 5th
attempt exactly as the claim describes, is never invoked by any
controller. -/
theorem c1_failed_logins_never_lock :
    (login [sampleUser] 0 "t" "t" "alice@example.com" "Wrong1!!x").result
      = .incorrect ∧
    (login [sampleUser] 0 "t" "t" "alice@example.com" "Wrong1!!x").db
      = [sampleUser] ∧
    sampleUser.loginAttempts = 0 ∧
    sampleUser.accountLocked = false ∧
    loginSucceeds
      (login [sampleUser] 0 "t" "t" "alice@example.com" "Correct1!").result
      = true ∧
    (handleFailedLogin (handleFailedLogin (handleFailedLogin
      (handleFailedLogin (handleFailedLogin sampleUser 0) 0) 0) 0) 0).accountLocked
      = true ∧
    (handleFailedLogin (handleFailedLogin (handleFailedLogin
      (handleFailedLogin (handleFailedLogin sampleUser 0) 0) 0) 0) 0).lockUntil
      = some (30 * 60 * 1000) := by
  refine ⟨by decide, by decide, rfl, rfl, by decide, by decide, by decide⟩

/-- C2 counterexample: with one stored user `alice@example.com`, a
`forgotPassword` request for the non-existent `nobody@example.com` gets
HTTP 404 while the same request for the existing address gets HTTP 200 —
the two responses differ, and a 404 is returned for a non-existent
account. -/
theorem c2_forgot_404_counterexample :
    forgotStatus
      (forgotPassword [sampleUser] 0 "tok" "t" "t" "nobody@example.com").fst
      = 404 ∧
    forgotStatus
      (forgotPassword [sampleUser] 0 "tok" "t" "t" "alice@example.com").fst
      = 200 ∧
    (404 : Nat) ≠ 200 := by
  refine ⟨by decide, by decide, by decide⟩

/-- C2 amended: a CSRF-valid `forgotPassword` request returns HTTP 404
("There is no user with that email address") exactly when the supplied
email belongs to no active user, and HTTP 200 ("Token sent to email")
when it does — the caller-visible response does reveal account
existence. -/
theorem c2_forgot_status_reveals_existence (db : List User) (now : Nat)
    (tok h hc email : String) (hcsrf : csrfValid h hc = true) :
    (findOneByEmail db email = none →
      forgotStatus (forgotPassword db now tok h hc email).fst = 404) ∧
    (∀ u, findOneByEmail db email = some u →
      forgotStatus (forgotPassword db now tok h hc email).fst = 200) := by
  constructor
  · intro hnone
    simp [forgotPassword, hcsrf, hnone, forgotStatus]
  · intro u hsome
    simp [forgotPassword, hcsrf, hsome, forgotStatus]

/-- C2 amended, witness: concrete instantiation at a missing account. -/
theorem c2_forgot_status_reveals_existence_witness :
    forgotStatus
      (forgotPassword [sampleUser] 0 "tok" "t" "t" "missing@example.com").fst
      = 404 :=
  (c2_forgot_status_reveals_existence [sampleUser] 0 "tok" "t" "t"
    "missing@example.com" (by decide)).1 (by decide)

/-- C8 counterexample: at response time `now = 0`, `logout` sets the
`jwt` cookie to expire at ms 10000, which is strictly after the moment
of the response — the cookie is not already expired. -/
theorem c8_logout_cookie_counterexample :
    (logout 0).cookieExpires = 10000 ∧ ¬ (logout 0).cookieExpires ≤ 0 := by
  exact ⟨rfl, by decide⟩

/-- C8 amended: every `logout` request returns HTTP 200 with
`{status:"success"}` and replaces the `jwt` cookie with the value
`loggedout` expiring 10 seconds after the moment of the response (a
short-lived overwrite, not an already-expired expiry). -/
theorem c8_logout_overwrites_cookie (now : Nat) :
    (logout now).status = 200 ∧
    (logout now).body = "success" ∧
    (logout now).cookieName = "jwt" ∧
    (logout now).cookieValue = "loggedout" ∧
    (logout now).cookieExpires = now + 10 * 1000 ∧
    now < (logout now).cookieExpires := by
  refine ⟨rfl, rfl, rfl, rfl, rfl, ?_⟩
  simp [logout]

end SecureEcommerce

namespace SecureEcommerce

/-- C3 counterexample: the password change happens at ms 1900 and a
session token issued at ms 1500 (strictly before the change) carries
`iat = 1`; since `changedPasswordAfter` compares whole seconds
(`1 < 1900/1000 = 1` is false), `protect` still grants access to that
old token after the change. -/
theorem c3_same_second_token_counterexample :
    updatePasswordStatus
      (updatePassword [sampleUser] 1900 "t" "t" 1
        "Correct1!" "NewPass1!" "NewPass1!").fst = 200 ∧
    1500 < 1900 ∧
    (signToken 1 1500).iat = 1 ∧
    protectGrants
      (protect
        (updatePassword [sampleUser] 1900 "t" "t" 1
          "Correct1!" "NewPass1!" "NewPass1!").snd
        (some (signToken 1 1500))) = true := by
  refine ⟨by decide, by decide, by decide, by decide⟩

/-- C3 amended: after a successful `updatePassword` at time `now`, a
session token whose `iat` lies in a strictly earlier whole second than
`now` fails the `protect` check with `passwordChanged`, and the fresh
token issued by the operation itself (`iat = now/1000`) succeeds;
tokens issued earlier within the same wall-clock second as the change
are not invalidated (second-granularity comparison). -/
theorem c3_password_change_invalidates_earlier_seconds (db : List User)
    (now : Nat) (h hc : String) (uid : Nat) (cur newPw conf : String)
    (u : User)
    (hcsrf : csrfValid h hc = true)
    (hfind : findById db uid = some u)
    (hpw : u.password = some (bcryptHash cur))
    (hreg : passwordRegex newPw = true)
    (hconf : newPw = conf) :
    updatePasswordStatus
      (updatePassword db now h hc uid cur newPw conf).fst = 200 ∧
    (∀ iat, iat < now / 1000 →
      protect (updatePassword db now h hc uid cur newPw conf).snd
        (some ⟨uid, iat⟩) = .passwordChanged) ∧
    protectGrants
      (protect (updatePassword db now h hc uid cur newPw conf).snd
        (some (signToken uid now))) = true := by
  obtain ⟨hact, hid⟩ := findById_spec hfind
  have hcorrect : ((u.password.map (correctPassword cur)).getD false) = true := by
    rw [hpw]; simp [correctPassword]
  have hne : (newPw != conf) = false := by subst hconf; simp
  have hup : updatePassword db now h hc uid cur newPw conf
      = ( .success (createSendToken
            { u with password := some (bcryptHash newPw),
                     passwordChangedAt := some (now - 1000) } now),
          updateUser db
            { u with password := some (bcryptHash newPw),
                     passwordChangedAt := some now } ) := by
    unfold updatePassword
    rw [hfind]
    simp [hcsrf, hcorrect, hreg, hne]
  have hfind2 : findById
      (updateUser db
        { u with password := some (bcryptHash newPw),
                 passwordChangedAt := some now }) uid
      = some { u with password := some (bcryptHash newPw),
                      passwordChangedAt := some now } :=
    findById_updateUser db uid u _ hfind hid hact
  refine ⟨by rw [hup]; rfl, ?_, ?_⟩
  · intro iat hiat
    rw [hup]
    simp only [protect, hfind2]
    simp [changedPasswordAfter, hiat]
  · rw [hup]
    simp only [protect, signToken, hfind2]
    simp [changedPasswordAfter, protectGrants]

/-- C3 amended, witness: concrete change at ms 5900; a token from
second 4 is rejected, the fresh token from the operation is accepted. -/
theorem c3_password_change_invalidates_earlier_seconds_witness :
    protect
      (updatePassword [sampleUser] 5900 "t" "t" 1
        "Correct1!" "NewPass1!" "NewPass1!").snd
      (some ⟨1, 4⟩) = .passwordChanged ∧
    protectGrants
      (protect
        (updatePassword [sampleUser] 5900 "t" "t" 1
          "Correct1!" "NewPass1!" "NewPass1!").snd
        (some (signToken 1 5900))) = true := by
  have hmain := c3_password_change_invalidates_earlier_seconds
    [sampleUser] 5900 "t" "t" 1 "Correct1!" "NewPass1!" "NewPass1!"
    sampleUser (by decide) (by decide) rfl (by decide) rfl
  exact ⟨hmain.2.1 4 (by decide), hmain.2.2⟩

/-- C7 counterexample: a locked, email-verified account whose lock has
not elapsed (`lockUntil` = ms 1000000, `now` = 0). With the correct
password the outcome is `AccountLocked`, but the bcrypt comparison was
invoked (`passwordChecked = true`), contradicting "without invoking the
password-verification step"; and with a wrong password the outcome is
`InvalidCredentials`, not `AccountLocked`, contradicting "regardless of
whether the supplied password is correct". -/
theorem c7_bcrypt_before_lock_counterexample :
    (login [sampleLockedUser] 0 "t" "t" "carol@example.com"
      "Correct1!").result = .locked 1000000 ∧
    (login [sampleLockedUser] 0 "t" "t" "carol@example.com"
      "Correct1!").passwordChecked = true ∧
    (login [sampleLockedUser] 0 "t" "t" "carol@example.com"
      "WrongPw1!").result = .incorrect ∧
    (login [sampleLockedUser] 0 "t" "t" "carol@example.com"
      "WrongPw1!").passwordChecked = true := by
  refine ⟨by decide, by decide, by decide, by decide⟩

/-- C7 amended: for a locked, email-verified account with
`now < lockUntil`, the lock check runs only after the bcrypt
comparison: with the correct password the attempt fails
`AccountLocked(until)` (the store untouched), with a wrong password it
fails `InvalidCredentials`; in both cases the Credential Store's
password check has been consulted. -/
theorem c7_lock_checked_after_password (db : List User) (now : Nat)
    (h hc email pw : String) (u : User) (t : Nat)
    (hcsrf : csrfValid h hc = true)
    (hemail : (email == "") = false)
    (hpwne : (pw == "") = false)
    (hfind : findOneByEmail db email = some u)
    (hverified : u.emailVerified = true)
    (hlocked : u.accountLocked = true)
    (huntil : u.lockUntil = some t)
    (hnow : now < t) :
    (u.password = some (bcryptHash pw) →
      (login db now h hc email pw).result = .locked t ∧
      (login db now h hc email pw).passwordChecked = true ∧
      (login db now h hc email pw).db = db) ∧
    ((u.password.map (correctPassword pw)).getD false = false →
      (login db now h hc email pw).result = .incorrect ∧
      (login db now h hc email pw).passwordChecked = true ∧
      (login db now h hc email pw).db = db) := by
  constructor
  · intro hpw
    have hcorrect : ((u.password.map (correctPassword pw)).getD false) = true := by
      rw [hpw]; simp [correctPassword]
    have hlog : login db now h hc email pw = ⟨.locked t, true, db⟩ := by
      unfold login
      rw [hfind]
      simp [hcsrf, hemail, hpwne, hcorrect, hverified, hlocked, huntil, hnow]
    rw [hlog]
    exact ⟨rfl, rfl, rfl⟩
  · intro hfail
    have hlog : login db now h hc email pw = ⟨.incorrect, true, db⟩ := by
      unfold login
      rw [hfind]
      simp [hcsrf, hemail, hpwne, hfail]
    rw [hlog]
    exact ⟨rfl, rfl, rfl⟩

/-- C7 amended, witness: the locked sample account with the correct
password. -/
theorem c7_lock_checked_after_password_witness :
    (login [sampleLockedUser] 3 "t" "t" "carol@example.com"
      "Correct1!").result = .locked 1000000 ∧
    (login [sampleLockedUser] 3 "t" "t" "carol@example.com"
      "Correct1!").passwordChecked = true ∧
    (login [sampleLockedUser] 3 "t" "t" "carol@example.com"
      "Correct1!").db = [sampleLockedUser] :=
  (c7_lock_checked_after_password [sampleLockedUser] 3 "t" "t"
    "carol@example.com" "Correct1!" sampleLockedUser 1000000
    (by decide) (by decide) (by decide) (by decide) rfl rfl rfl
    (by decide)).1 rfl

end SecureEcommerce

namespace SecureEcommerce

theorem signup_created_inv (db : List User) (now freshId : Nat)
    (vt h hc name email pw pc : String) (env : AuthEnvelope)
    (henv : (signup db now freshId vt h hc name email pw pc).fst
      = .created env) :
    csrfValid h hc = true ∧
    ¬ pw.length < 8 ∧
    passwordRegex pw = true ∧
    pw = pc ∧
    findOneByEmail db email = none ∧
    env = createSendToken
      { id := freshId
        name := name
        email := lowercaseEmail email
        password := some (bcryptHash pw)
        role := "user"
        emailVerified := false
        verificationToken := some (sha256Hex vt)
        verificationExpires := some (now + 24 * 60 * 60 * 1000)
        passwordChangedAt := none
        passwordResetToken := none
        passwordResetExpires := none
        active := true
        lastLogin := none
        loginAttempts := 0
        accountLocked := false
        lockUntil := none } now := by
  unfold signup at henv
  split at henv
  · exact absurd henv (by simp)
  next hcsrf =>
    split at henv
    · exact absurd henv (by simp)
    next hlen =>
      split at henv
      · exact absurd henv (by simp)
      next hregx =>
        split at henv
        · exact absurd henv (by simp)
        next hne =>
          split at henv
          next w hw => exact absurd henv (by simp)
          next hnone =>
            simp at hcsrf hlen hregx hne henv
            exact ⟨hcsrf, by omega, hregx, hne, hnone, henv.symm⟩

end SecureEcommerce

namespace SecureEcommerce

/-- C4: a password-reset token is single-use. For a stored user holding
the non-expired hash of the plaintext `tok` (and nobody else holding
that hash), a CSRF-valid `resetPassword` with `tok` and a valid new
password returns 200, and in the very same store update the user's
`passwordResetToken` and `passwordResetExpires` are cleared, so a second
`resetPassword` with the same plaintext — at any later time — fails
`InvalidOrExpiredToken` with HTTP 400. -/
theorem c4_reset_token_single_use (db : List User) (now now2 : Nat)
    (h hc tok pw pc : String) (u : User)
    (hcsrf : csrfValid h hc = true)
    (hfind : findOneByResetToken db now (sha256Hex tok) = some u)
    (huniq : ∀ v ∈ db, v.passwordResetToken = some (sha256Hex tok) →
      v.id = u.id)
    (hreg : passwordRegex pw = true)
    (hconf : pw = pc) :
    resetStatus (resetPassword db now h hc tok pw pc).fst = 200 ∧
    (∀ v ∈ (resetPassword db now h hc tok pw pc).snd, v.id = u.id →
      v.passwordResetToken = none ∧ v.passwordResetExpires = none) ∧
    (resetPassword (resetPassword db now h hc tok pw pc).snd
      now2 h hc tok pw pc).fst = .invalidOrExpired ∧
    resetStatus (resetPassword (resetPassword db now h hc tok pw pc).snd
      now2 h hc tok pw pc).fst = 400 := by
  have hne : (pw != pc) = false := by subst hconf; simp
  have hres : resetPassword db now h hc tok pw pc
      = ( .success (createSendToken
            { u with password := some (bcryptHash pw),
                     passwordResetToken := none,
                     passwordResetExpires := none,
                     passwordChangedAt := some (now - 1000) } now),
          updateUser db
            { u with password := some (bcryptHash pw),
                     passwordResetToken := none,
                     passwordResetExpires := none,
                     passwordChangedAt := some now } ) := by
    unfold resetPassword
    rw [hfind]
    simp [hcsrf, hreg, hne]
  have hclear2 : findOneByResetToken
      (updateUser db
        { u with password := some (bcryptHash pw),
                 passwordResetToken := none,
                 passwordResetExpires := none,
                 passwordChangedAt := some now })
      now2 (sha256Hex tok) = none :=
    findOneByResetToken_updateUser_cleared db now2 (sha256Hex tok) _ rfl
      (fun v hv hvt => huniq v hv hvt)
  have hsecond : (resetPassword (resetPassword db now h hc tok pw pc).snd
      now2 h hc tok pw pc).fst = .invalidOrExpired := by
    rw [hres]
    unfold resetPassword
    rw [hclear2]
    simp [hcsrf]
  refine ⟨by rw [hres]; rfl, ?_, hsecond, by rw [hsecond]; rfl⟩
  rw [hres]
  intro v hv hvid
  simp only [updateUser, List.mem_map] at hv
  obtain ⟨w, hw, hwv⟩ := hv
  by_cases hwid : w.id = u.id
  · simp only [hwid, beq_self_eq_true, if_true] at hwv
    rw [← hwv]
    exact ⟨rfl, rfl⟩
  · have hcond : (w.id == u.id) = false := by simpa using hwid
    rw [hcond] at hwv
    simp only [Bool.false_eq_true, if_false] at hwv
    subst hwv
    exact absurd hvid hwid

/-- C4, witness: the sample reset-token holder; first consumption at
ms 5 succeeds, the second at ms 6 fails with 400. -/
theorem c4_reset_token_single_use_witness :
    resetStatus (resetPassword [sampleResetUser] 5 "t" "t"
      "resetplain" "NewPass1!" "NewPass1!").fst = 200 ∧
    (resetPassword (resetPassword [sampleResetUser] 5 "t" "t"
        "resetplain" "NewPass1!" "NewPass1!").snd
      6 "t" "t" "resetplain" "NewPass1!" "NewPass1!").fst
      = .invalidOrExpired := by
  have hmain := c4_reset_token_single_use [sampleResetUser] 5 6 "t" "t"
    "resetplain" "NewPass1!" "NewPass1!" sampleResetUser
    (by decide) (by decide)
    (by intro v hv hvt
        rw [List.mem_singleton] at hv
        subst hv
        rfl)
    (by decide) rfl
  exact ⟨hmain.1, hmain.2.2.1⟩

/-- C5: a user whose `emailVerified` flag is false is refused login with
the 401 "Please verify your email before logging in" outcome even when
the email and password are correct and the account is not locked, no
session token is issued, and the store is unchanged; moreover `signup`
leaves every newly created user with `emailVerified = false`. -/
theorem c5_unverified_login_rejected (db : List User) (now : Nat)
    (h hc email pw : String) (u : User)
    (hcsrf : csrfValid h hc = true)
    (hemail : (email == "") = false)
    (hpwne : (pw == "") = false)
    (hfind : findOneByEmail db email = some u)
    (hpw : u.password = some (bcryptHash pw))
    (hver : u.emailVerified = false)
    (hlock : u.accountLocked = false) :
    (login db now h hc email pw).result = .notVerified ∧
    loginStatus (login db now h hc email pw).result = 401 ∧
    loginSucceeds (login db now h hc email pw).result = false ∧
    (login db now h hc email pw).db = db ∧
    (∀ (db2 : List User) (now2 freshId : Nat)
        (vt h2 hc2 name2 email2 pw2 pc2 : String) (env : AuthEnvelope),
      (signup db2 now2 freshId vt h2 hc2 name2 email2 pw2 pc2).fst
        = .created env →
      env.user.emailVerified = false) := by
  have hcorrect : ((u.password.map (correctPassword pw)).getD false) = true := by
    rw [hpw]; simp [correctPassword]
  have hlog : login db now h hc email pw = ⟨.notVerified, true, db⟩ := by
    unfold login
    rw [hfind]
    simp [hcsrf, hemail, hpwne, hcorrect, hver]
  refine ⟨by rw [hlog], by rw [hlog]; rfl, by rw [hlog]; rfl, by rw [hlog], ?_⟩
  intro db2 now2 freshId vt h2 hc2 name2 email2 pw2 pc2 env henv
  obtain ⟨-, -, -, -, -, henv⟩ :=
    signup_created_inv db2 now2 freshId vt h2 hc2 name2 email2 pw2 pc2 env henv
  rw [henv]
  rfl

/-- C5, witness: the unverified sample account with its correct
password. -/
theorem c5_unverified_login_rejected_witness :
    (login [sampleUnverifiedUser] 0 "t" "t" "dave@example.com"
      "Correct1!").result = .notVerified ∧
    loginStatus (login [sampleUnverifiedUser] 0 "t" "t" "dave@example.com"
      "Correct1!").result = 401 := by
  have hmain := c5_unverified_login_rejected [sampleUnverifiedUser] 0 "t" "t"
    "dave@example.com" "Correct1!" sampleUnverifiedUser
    (by decide) (by decide) (by decide) (by decide) rfl rfl rfl
  exact ⟨hmain.1, hmain.2.1⟩

/-- C6: when some stored active user's (lowercase-stored) email equals
the lowercase normalization of the requested email, an otherwise valid
`signup` fails with `DuplicateEmail` (HTTP 400, "Email already in use")
and the user collection is unchanged — no new user is created. -/
theorem c6_duplicate_email_case_insensitive (db : List User)
    (now freshId : Nat) (vt h hc name email pw pc : String) (v : User)
    (hcsrf : csrfValid h hc = true)
    (hmem : v ∈ db)
    (hactive : v.active = true)
    (hemail : v.email = lowercaseEmail email)
    (hlen : ¬ pw.length < 8)
    (hreg : passwordRegex pw = true)
    (hconf : pw = pc) :
    (signup db now freshId vt h hc name email pw pc).fst
      = .duplicateEmail ∧
    signupStatus (signup db now freshId vt h hc name email pw pc).fst
      = 400 ∧
    (signup db now freshId vt h hc name email pw pc).snd = db := by
  have hne : (pw != pc) = false := by subst hconf; simp
  have hlen2 : (decide (pw.length < 8)) = false := by
    simpa using hlen
  have hsome : ∃ w, findOneByEmail db email = some w := by
    have hs : (findOneByEmail db email).isSome = true := by
      unfold findOneByEmail
      rw [List.find?_isSome]
      exact ⟨v, hmem, by simp [hactive, hemail]⟩
    exact Option.isSome_iff_exists.mp hs
  obtain ⟨w, hw⟩ := hsome
  have hsig : signup db now freshId vt h hc name email pw pc
      = (.duplicateEmail, db) := by
    unfold signup
    rw [hw]
    simp [hcsrf, hlen2, hreg, hne]
  exact ⟨by rw [hsig], by rw [hsig]; rfl, by rw [hsig]⟩

/-- C6, witness: `alice@example.com` is stored; a signup with
`Alice@Example.COM` (same address up to letter case) and a strong
password is rejected as a duplicate without creating a user. -/
theorem c6_duplicate_email_case_insensitive_witness :
    (signup [sampleUser] 0 9 "v" "t" "t" "Alice Again"
      "Alice@Example.COM" "Abcdef1!" "Abcdef1!").fst = .duplicateEmail ∧
    (signup [sampleUser] 0 9 "v" "t" "t" "Alice Again"
      "Alice@Example.COM" "Abcdef1!" "Abcdef1!").snd = [sampleUser] := by
  have hmain := c6_duplicate_email_case_insensitive [sampleUser] 0 9 "v"
    "t" "t" "Alice Again" "Alice@Example.COM" "Abcdef1!" "Abcdef1!"
    sampleUser (by decide) (List.mem_singleton.mpr rfl) rfl (by decide)
    (by decide) (by decide) rfl
  exact ⟨hmain.1, hmain.2.2⟩

end SecureEcommerce

namespace SecureEcommerce

theorem passwordRegex_imp_spec (p : String) (h : passwordRegex p = true) :
    specPasswordRule p = true := by
  unfold passwordRegex at h
  simp only [Bool.and_eq_true, decide_eq_true_eq] at h
  obtain ⟨⟨⟨⟨hd, hl⟩, hu⟩, hs⟩, hlen⟩ := h
  have hsub := List.takeWhile_sublist (l := p.toList) jsDot
  have htrans : ∀ f : Char → Bool,
      (p.toList.takeWhile jsDot).any f = true → p.toList.any f = true := by
    intro f hf
    rw [List.any_eq_true] at hf ⊢
    obtain ⟨c, hc, hcf⟩ := hf
    exact ⟨c, hsub.subset hc, hcf⟩
  unfold specPasswordRule
  simp only [Bool.and_eq_true, decide_eq_true_eq]
  refine ⟨⟨⟨⟨?_, htrans _ hu⟩, htrans _ hl⟩, htrans _ hd⟩, htrans _ hs⟩
  exact le_trans hlen hsub.length_le

theorem login_success_env (db : List User) (now : Nat)
    (h hc email pw : String) (env : AuthEnvelope)
    (henv : (login db now h hc email pw).result = .success env) :
    ∃ w, env = createSendToken w now := by
  unfold login at henv
  repeat' split at henv
  all_goals simp at henv
  all_goals exact ⟨_, henv.symm⟩

theorem updatePassword_success_env (db : List User) (now : Nat)
    (h hc : String) (uid : Nat) (cur newPw conf : String)
    (env : AuthEnvelope)
    (henv : (updatePassword db now h hc uid cur newPw conf).fst
      = .success env) :
    ∃ w, env = createSendToken w now := by
  unfold updatePassword at henv
  repeat' split at henv
  all_goals simp at henv
  all_goals exact ⟨_, henv.symm⟩

theorem resetPassword_success_env (db : List User) (now : Nat)
    (h hc tok pw pc : String) (env : AuthEnvelope)
    (henv : (resetPassword db now h hc tok pw pc).fst = .success env) :
    ∃ w, env = createSendToken w now := by
  unfold resetPassword at henv
  repeat' split at henv
  all_goals simp at henv
  all_goals exact ⟨_, henv.symm⟩

/-- C9: a CSRF-valid `signup` creates a user only if the password
satisfies the strength rule stated by the claim (length at least 8 with
at least one uppercase letter, one lowercase letter, one digit and one
special character from `!@#$%^&*`) and `password = passwordConfirm`;
every input violating these rules is rejected with HTTP 400 and the
user collection is left unchanged — no user is created. -/
theorem c9_signup_password_validation (db : List User)
    (now freshId : Nat) (vt h hc name email pw pc : String)
    (hcsrf : csrfValid h hc = true) :
    (∀ env, (signup db now freshId vt h hc name email pw pc).fst
        = .created env →
      specPasswordRule pw = true ∧ pw = pc) ∧
    ((specPasswordRule pw = false ∨ pw ≠ pc) →
      signupStatus (signup db now freshId vt h hc name email pw pc).fst
        = 400 ∧
      (signup db now freshId vt h hc name email pw pc).snd = db) := by
  constructor
  · intro env henv
    obtain ⟨-, -, hregx, hne, -, -⟩ :=
      signup_created_inv db now freshId vt h hc name email pw pc env henv
    exact ⟨passwordRegex_imp_spec pw hregx, hne⟩
  · intro hbad
    by_cases hlen : pw.length < 8
    · have hsig : signup db now freshId vt h hc name email pw pc
          = (.passwordTooShort, db) := by
        unfold signup
        simp [hcsrf, hlen]
      rw [hsig]
      exact ⟨rfl, rfl⟩
    · by_cases hregx : passwordRegex pw = true
      · have hspec := passwordRegex_imp_spec pw hregx
        have hne : pw ≠ pc := by
          rcases hbad with hb | hb
          · rw [hspec] at hb
            exact absurd hb (by simp)
          · exact hb
        have hsig : signup db now freshId vt h hc name email pw pc
            = (.passwordMismatch, db) := by
          unfold signup
          simp [hcsrf, hlen, hregx, hne]
        rw [hsig]
        exact ⟨rfl, rfl⟩
      · have hregf : passwordRegex pw = false := by simpa using hregx
        have hsig : signup db now freshId vt h hc name email pw pc
            = (.passwordWeak, db) := by
          unfold signup
          simp [hcsrf, hlen, hregf]
        rw [hsig]
        exact ⟨rfl, rfl⟩

/-- C9, witness: a signup with the weak password `weakpass` (no
uppercase, digit or special character) is rejected with 400 and creates
no user. -/
theorem c9_signup_password_validation_witness :
    signupStatus (signup [] 0 1 "v" "t" "t" "Bob" "bob@example.com"
      "weakpass" "weakpass").fst = 400 ∧
    (signup [] 0 1 "v" "t" "t" "Bob" "bob@example.com"
      "weakpass" "weakpass").snd = [] :=
  (c9_signup_password_validation [] 0 1 "v" "t" "t" "Bob"
    "bob@example.com" "weakpass" "weakpass" (by decide)).2
    (Or.inl (by decide))

/-- C10: the serialized user in every successful `signup`, `login`,
`updatePassword` and `resetPassword` response carries no password
field — `createSendToken` strips it before serialization on every
success path. -/
theorem c10_no_password_in_responses (db : List User)
    (now freshId uid : Nat)
    (vt resetTok h hc name email pw pc cur : String) :
    (∀ env, (signup db now freshId vt h hc name email pw pc).fst
        = .created env → env.user.password = none) ∧
    (∀ env, (login db now h hc email pw).result = .success env →
      env.user.password = none) ∧
    (∀ env, (updatePassword db now h hc uid cur pw pc).fst
        = .success env → env.user.password = none) ∧
    (∀ env, (resetPassword db now h hc resetTok pw pc).fst
        = .success env → env.user.password = none) := by
  refine ⟨?_, ?_, ?_, ?_⟩
  · intro env henv
    obtain ⟨-, -, -, -, -, henv⟩ :=
      signup_created_inv db now freshId vt h hc name email pw pc env henv
    rw [henv]
    rfl
  · intro env henv
    obtain ⟨w, hw⟩ := login_success_env db now h hc email pw env henv
    rw [hw]
    rfl
  · intro env henv
    obtain ⟨w, hw⟩ :=
      updatePassword_success_env db now h hc uid cur pw pc env henv
    rw [hw]
    rfl
  · intro env henv
    obtain ⟨w, hw⟩ :=
      resetPassword_success_env db now h hc resetTok pw pc env henv
    rw [hw]
    rfl

/-- C10, witness: a concrete successful signup whose response payload
has no password field. -/
theorem c10_no_password_in_responses_witness :
    ∃ env, (signup [] 0 7 "v" "t" "t" "Bob" "bob@example.com"
      "Abcdef1!" "Abcdef1!").fst = .created env ∧
      env.user.password = none := by
  have happ := (c10_no_password_in_responses [] 0 7 0 "v" "rt" "t" "t"
    "Bob" "bob@example.com" "Abcdef1!" "Abcdef1!" "cur").1
  exact ⟨_, rfl, happ _ rfl⟩

end SecureEcommerce
